import Mathlib

/-!
# vulkan_engine: deletion queue, frame rotation, pipeline builder, shader loader

A shallow embedding of `src/vk_engine.h` and `src/vk_pipelines.cpp`.

* A `std::function<void()>` is a transformer `W → W` of the world outside the
  queue that holds it (so an action cannot touch the queue).
* Every execution also records the functors it calls, in call order.
* Vulkan handles, enums, flags and raw pointers are natural numbers
  (`0` is `VK_NULL_HANDLE` / `nullptr` / the zero enumerator); `float` fields
  are their bit patterns, so `0` is `0.0f`.
-/

namespace VkEngine

/-! ## `vk_engine.h` : `DeletionQueue` -/

/-- The member `std::deque<std::function<void()>> deletors` of `struct DeletionQueue`;
front of the deque is the head of the list. -/
structure DeletionQueue (W : Type) where
  deletors : List (W → W)

/-- What an execution has done so far: the world, and the functors called, oldest call first. -/
structure Exec (W : Type) where
  world : W
  calls : List (W → W)

/-- `deletors.push_back(function)`. -/
def DeletionQueue.push_function {W : Type} (q : DeletionQueue W) (function : W → W) :
    DeletionQueue W :=
  { deletors := q.deletors ++ [function] }

/-- The loop `for (auto it = deletors.rbegin(); it != deletors.rend(); it++) (*it)();`.
The counter is the distance from `it` to `rend()`: the reverse iterator at distance
`n + 1` designates `deletors[n]`, and `it++` brings the distance to `n`. -/
def DeletionQueue.flushLoop {W : Type} (deletors : List (W → W)) : Nat → Exec W → Exec W
  | 0, s => s
  | n + 1, s =>
    match deletors[n]? with
    | some f => DeletionQueue.flushLoop deletors n { world := f s.world, calls := s.calls ++ [f] }
    | none => s

/-- `DeletionQueue::flush`: run the loop from `rbegin()`, then `deletors.clear()`. -/
def DeletionQueue.flush {W : Type} (q : DeletionQueue W) (s : Exec W) :
    DeletionQueue W × Exec W :=
  ({ deletors := [] }, DeletionQueue.flushLoop q.deletors q.deletors.length s)

/-- A default-constructed `DeletionQueue`: the deque is empty. -/
def DeletionQueue.empty (W : Type) : DeletionQueue W := { deletors := [] }

/-- One call made on a queue by its owner. -/
inductive QueueOp (W : Type) where
  | push (function : W → W)
  | flushOp

/-- The state of a run of calls on one queue: the queue, the execution so far, and for
every `flush` made, in order, the functors that flush called (in call order). -/
structure QueueRun (W : Type) where
  queue : DeletionQueue W
  exec : Exec W
  flushes : List (List (W → W))

/-- Perform one call. A flush starts with an empty call record of its own, which is then
appended to the execution. -/
def QueueRun.step {W : Type} (r : QueueRun W) : QueueOp W → QueueRun W
  | .push f => { r with queue := r.queue.push_function f }
  | .flushOp =>
    let out := r.queue.flush { world := r.exec.world, calls := [] }
    { queue := out.1
      exec := { world := out.2.world, calls := r.exec.calls ++ out.2.calls }
      flushes := r.flushes ++ [out.2.calls] }

/-- Perform a sequence of calls, first to last. -/
def QueueRun.run {W : Type} (r : QueueRun W) (ops : List (QueueOp W)) : QueueRun W :=
  ops.foldl QueueRun.step r

/-- The run that starts from a default-constructed queue in world `w`. -/
def QueueRun.start {W : Type} (w : W) : QueueRun W :=
  { queue := DeletionQueue.empty W, exec := { world := w, calls := [] }, flushes := [] }

/-- The actions of a call sequence that no flush has followed yet, oldest first
(follows the words of the claim: "the first flush that follows its push"). -/
def pendingPushes {W : Type} : List (QueueOp W) → List (W → W) → List (W → W)
  | [], acc => acc
  | .push f :: ops, acc => pendingPushes ops (acc ++ [f])
  | .flushOp :: ops, _ => pendingPushes ops []

/-- For every flush of a call sequence, the actions pushed since the flush before it
(or since the start), newest first (follows the words of the claim). -/
def flushGroups {W : Type} : List (QueueOp W) → List (W → W) → List (List (W → W))
  | [], _ => []
  | .push f :: ops, acc => flushGroups ops (acc ++ [f])
  | .flushOp :: ops, acc => acc.reverse :: flushGroups ops []

/-- All the actions a call sequence pushes, oldest first. -/
def pushedActions {W : Type} : List (QueueOp W) → List (W → W)
  | [] => []
  | .push f :: ops => f :: pushedActions ops
  | .flushOp :: ops => pushedActions ops

/-! ## `vk_engine.h` : `FrameData`, `FRAME_OVERLAP`, `VulkanEngine::get_current_frame` -/

/-- The structure `FrameData`: five handles and the deletion queue of the slot. -/
structure FrameData (W : Type) where
  _swapchainSemaphore : Nat
  _renderSemaphore : Nat
  _renderFence : Nat
  _commandPool : Nat
  _mainCommandBuffer : Nat
  _deletionQueue : DeletionQueue W

/-- `constexpr unsigned int FRAME_OVERLAP = 2;` -/
def FRAME_OVERLAP : Nat := 2

/-- Least value of a 32-bit `int`. -/
def INT_MIN : Int := -2147483648

/-- Greatest value of a 32-bit `int`. -/
def INT_MAX : Int := 2147483647

/-- Conversion of an `int` to `unsigned int`: the value modulo `2^32`. -/
def toUnsigned (n : Int) : Nat := (n % 4294967296).toNat

/-- The index expression `_frameNumber % FRAME_OVERLAP` of `get_current_frame`. The left operand
is an `int` and the right one an `unsigned int`, so the left one is converted to `unsigned int`
and the remainder is the unsigned one. -/
def frameIndex (_frameNumber : Int) : Nat := toUnsigned _frameNumber % FRAME_OVERLAP

/-- The members of `class VulkanEngine` that frame selection reads: `int _frameNumber` and
`FrameData _frames[FRAME_OVERLAP]`. -/
structure VulkanEngine (W : Type) where
  _frameNumber : Int
  _frames : Fin FRAME_OVERLAP → FrameData W

/-- The slot that `get_current_frame()` designates. -/
def VulkanEngine.currentSlot {W : Type} (e : VulkanEngine W) : Fin FRAME_OVERLAP :=
  ⟨frameIndex e._frameNumber, Nat.mod_lt _ (by decide)⟩

/-- `FrameData& get_current_frame() { return _frames[_frameNumber % FRAME_OVERLAP]; }`,
read through the reference. -/
def VulkanEngine.get_current_frame {W : Type} (e : VulkanEngine W) : FrameData W :=
  e._frames e.currentSlot

/-- A write through the reference `get_current_frame()` returns. -/
def VulkanEngine.set_current_frame {W : Type} (e : VulkanEngine W) (fd : FrameData W) :
    VulkanEngine W :=
  { e with _frames := Function.update e._frames e.currentSlot fd }

/-- Modelled from the spec: `VulkanEngine::draw` (`vk_engine.cpp`) is not among the sources.
Following sections 2 and 4.2 of the spec, a frame selects its slot with `get_current_frame()`,
flushes that slot's `_deletionQueue`, then records the frame, during which it pushes the actions
`pushes` (oldest first) onto the current slot's queue, and at the end increments `_frameNumber`
by one. The result is the engine after the frame and the execution of the flush. -/
def VulkanEngine.draw {W : Type} (pushes : List (W → W)) (e : VulkanEngine W) (w : W) :
    VulkanEngine W × Exec W :=
  let slot := e.get_current_frame
  let out := slot._deletionQueue.flush { world := w, calls := [] }
  let e1 := e.set_current_frame { slot with _deletionQueue := out.1 }
  let e2 := e1.set_current_frame
    { e1.get_current_frame with
      _deletionQueue := pushes.foldl DeletionQueue.push_function e1.get_current_frame._deletionQueue }
  ({ e2 with _frameNumber := e2._frameNumber + 1 }, out.2)

/-- Modelled from the spec: the loop that calls `draw` once per frame (`VulkanEngine::run`,
`vk_engine.cpp`) is not among the sources. Consecutive frames are drawn one after the other;
the k-th list holds the actions pushed during the k-th frame. The result is the engine and the
world after the last frame, and the calls made by the flush of each frame, first frame first. -/
def VulkanEngine.drawAll {W : Type} :
    List (List (W → W)) → VulkanEngine W → W → VulkanEngine W × W × List (List (W → W))
  | [], e, w => (e, w, [])
  | pushes :: rest, e, w =>
    let out := e.draw pushes w
    let later := VulkanEngine.drawAll rest out.1 out.2.world
    (later.1, later.2.1, out.2.calls :: later.2.2)

/-- The slot that is not the given one. -/
def otherSlot (s : Fin FRAME_OVERLAP) : Fin FRAME_OVERLAP :=
  ⟨(s.val + 1) % FRAME_OVERLAP, Nat.mod_lt _ (by decide)⟩

/-- An engine at frame 0 whose two slots hold empty deletion queues and null handles. -/
def sampleEngine : VulkanEngine (List Nat) :=
  { _frameNumber := 0
    _frames := fun _ =>
      { _swapchainSemaphore := 0, _renderSemaphore := 0, _renderFence := 0, _commandPool := 0,
        _mainCommandBuffer := 0, _deletionQueue := DeletionQueue.empty (List Nat) } }

/-- An action that records the number `k` in a world that is a log. -/
def logAction (k : Nat) : List Nat → List Nat := fun log => log ++ [k]

/-! ## Vulkan API types used by `vk_pipelines.cpp`

Field lists and enumerator values are those of the Vulkan headers. -/

def VK_SUCCESS : Int := 0
def VK_FALSE : Nat := 0
def VK_LOGIC_OP_COPY : Nat := 3
def VK_STRUCTURE_TYPE_SHADER_MODULE_CREATE_INFO : Nat := 16
def VK_STRUCTURE_TYPE_PIPELINE_VERTEX_INPUT_STATE_CREATE_INFO : Nat := 19
def VK_STRUCTURE_TYPE_PIPELINE_INPUT_ASSEMBLY_STATE_CREATE_INFO : Nat := 20
def VK_STRUCTURE_TYPE_PIPELINE_VIEWPORT_STATE_CREATE_INFO : Nat := 22
def VK_STRUCTURE_TYPE_PIPELINE_RASTERIZATION_STATE_CREATE_INFO : Nat := 23
def VK_STRUCTURE_TYPE_PIPELINE_MULTISAMPLE_STATE_CREATE_INFO : Nat := 24
def VK_STRUCTURE_TYPE_PIPELINE_DEPTH_STENCIL_STATE_CREATE_INFO : Nat := 25
def VK_STRUCTURE_TYPE_PIPELINE_COLOR_BLEND_STATE_CREATE_INFO : Nat := 26
def VK_STRUCTURE_TYPE_PIPELINE_RENDERING_CREATE_INFO : Nat := 1000044002

structure VkPipelineShaderStageCreateInfo where
  sType : Nat
  pNext : Nat
  flags : Nat
  stage : Nat
  module : Nat
  pName : Nat
  pSpecializationInfo : Nat
  deriving DecidableEq

structure VkPipelineInputAssemblyStateCreateInfo where
  sType : Nat
  pNext : Nat
  flags : Nat
  topology : Nat
  primitiveRestartEnable : Nat
  deriving DecidableEq

structure VkPipelineRasterizationStateCreateInfo where
  sType : Nat
  pNext : Nat
  flags : Nat
  depthClampEnable : Nat
  rasterizerDiscardEnable : Nat
  polygonMode : Nat
  cullMode : Nat
  frontFace : Nat
  depthBiasEnable : Nat
  depthBiasConstantFactor : Nat
  depthBiasClamp : Nat
  depthBiasSlopeFactor : Nat
  lineWidth : Nat
  deriving DecidableEq

structure VkPipelineColorBlendAttachmentState where
  blendEnable : Nat
  srcColorBlendFactor : Nat
  dstColorBlendFactor : Nat
  colorBlendOp : Nat
  srcAlphaBlendFactor : Nat
  dstAlphaBlendFactor : Nat
  alphaBlendOp : Nat
  colorWriteMask : Nat
  deriving DecidableEq

structure VkPipelineMultisampleStateCreateInfo where
  sType : Nat
  pNext : Nat
  flags : Nat
  rasterizationSamples : Nat
  sampleShadingEnable : Nat
  minSampleShading : Nat
  pSampleMask : Nat
  alphaToCoverageEnable : Nat
  alphaToOneEnable : Nat
  deriving DecidableEq

structure VkStencilOpState where
  failOp : Nat
  passOp : Nat
  depthFailOp : Nat
  compareOp : Nat
  compareMask : Nat
  writeMask : Nat
  reference : Nat
  deriving DecidableEq

structure VkPipelineDepthStencilStateCreateInfo where
  sType : Nat
  pNext : Nat
  flags : Nat
  depthTestEnable : Nat
  depthWriteEnable : Nat
  depthCompareOp : Nat
  depthBoundsTestEnable : Nat
  stencilTestEnable : Nat
  front : VkStencilOpState
  back : VkStencilOpState
  minDepthBounds : Nat
  maxDepthBounds : Nat
  deriving DecidableEq

structure VkPipelineRenderingCreateInfo where
  sType : Nat
  pNext : Nat
  viewMask : Nat
  colorAttachmentCount : Nat
  pColorAttachmentFormats : Nat
  depthAttachmentFormat : Nat
  stencilAttachmentFormat : Nat
  deriving DecidableEq

/-- A typed pointer a function fills in: null, or the address of an object, given by the
value the object holds when the function ends. -/
inductive Ptr (α : Type) where
  | null
  | addressOf (pointee : α)
  deriving DecidableEq

structure VkPipelineViewportStateCreateInfo where
  sType : Nat
  pNext : Nat
  flags : Nat
  viewportCount : Nat
  pViewports : Nat
  scissorCount : Nat
  pScissors : Nat
  deriving DecidableEq

structure VkPipelineColorBlendStateCreateInfo where
  sType : Nat
  pNext : Nat
  flags : Nat
  logicOpEnable : Nat
  logicOp : Nat
  attachmentCount : Nat
  pAttachments : Ptr VkPipelineColorBlendAttachmentState
  blendConstants : List Nat
  deriving DecidableEq

structure VkPipelineVertexInputStateCreateInfo where
  sType : Nat
  pNext : Nat
  flags : Nat
  vertexBindingDescriptionCount : Nat
  pVertexBindingDescriptions : Nat
  vertexAttributeDescriptionCount : Nat
  pVertexAttributeDescriptions : Nat
  deriving DecidableEq

structure VkShaderModuleCreateInfo where
  sType : Nat
  pNext : Nat
  flags : Nat
  codeSize : Nat
  pCode : List (Fin 256)
  deriving DecidableEq

/-! ### Value initialisation (`= {}`) of the structures above -/

def VkPipelineInputAssemblyStateCreateInfo.zero : VkPipelineInputAssemblyStateCreateInfo :=
  { sType := 0, pNext := 0, flags := 0, topology := 0, primitiveRestartEnable := 0 }

def VkPipelineRasterizationStateCreateInfo.zero : VkPipelineRasterizationStateCreateInfo :=
  { sType := 0, pNext := 0, flags := 0, depthClampEnable := 0, rasterizerDiscardEnable := 0,
    polygonMode := 0, cullMode := 0, frontFace := 0, depthBiasEnable := 0,
    depthBiasConstantFactor := 0, depthBiasClamp := 0, depthBiasSlopeFactor := 0, lineWidth := 0 }

def VkPipelineColorBlendAttachmentState.zero : VkPipelineColorBlendAttachmentState :=
  { blendEnable := 0, srcColorBlendFactor := 0, dstColorBlendFactor := 0, colorBlendOp := 0,
    srcAlphaBlendFactor := 0, dstAlphaBlendFactor := 0, alphaBlendOp := 0, colorWriteMask := 0 }

def VkPipelineMultisampleStateCreateInfo.zero : VkPipelineMultisampleStateCreateInfo :=
  { sType := 0, pNext := 0, flags := 0, rasterizationSamples := 0, sampleShadingEnable := 0,
    minSampleShading := 0, pSampleMask := 0, alphaToCoverageEnable := 0, alphaToOneEnable := 0 }

def VkStencilOpState.zero : VkStencilOpState :=
  { failOp := 0, passOp := 0, depthFailOp := 0, compareOp := 0, compareMask := 0,
    writeMask := 0, reference := 0 }

def VkPipelineDepthStencilStateCreateInfo.zero : VkPipelineDepthStencilStateCreateInfo :=
  { sType := 0, pNext := 0, flags := 0, depthTestEnable := 0, depthWriteEnable := 0,
    depthCompareOp := 0, depthBoundsTestEnable := 0, stencilTestEnable := 0,
    front := VkStencilOpState.zero, back := VkStencilOpState.zero,
    minDepthBounds := 0, maxDepthBounds := 0 }

def VkPipelineRenderingCreateInfo.zero : VkPipelineRenderingCreateInfo :=
  { sType := 0, pNext := 0, viewMask := 0, colorAttachmentCount := 0,
    pColorAttachmentFormats := 0, depthAttachmentFormat := 0, stencilAttachmentFormat := 0 }

def VkPipelineViewportStateCreateInfo.zero : VkPipelineViewportStateCreateInfo :=
  { sType := 0, pNext := 0, flags := 0, viewportCount := 0, pViewports := 0,
    scissorCount := 0, pScissors := 0 }

def VkPipelineColorBlendStateCreateInfo.zero : VkPipelineColorBlendStateCreateInfo :=
  { sType := 0, pNext := 0, flags := 0, logicOpEnable := 0, logicOp := 0, attachmentCount := 0,
    pAttachments := Ptr.null, blendConstants := [0, 0, 0, 0] }

def VkPipelineVertexInputStateCreateInfo.zero : VkPipelineVertexInputStateCreateInfo :=
  { sType := 0, pNext := 0, flags := 0, vertexBindingDescriptionCount := 0,
    pVertexBindingDescriptions := 0, vertexAttributeDescriptionCount := 0,
    pVertexAttributeDescriptions := 0 }

def VkShaderModuleCreateInfo.zero : VkShaderModuleCreateInfo :=
  { sType := 0, pNext := 0, flags := 0, codeSize := 0, pCode := [] }

/-! ## `vk_pipelines.cpp` : `PipelineBuilder` -/

/-- The data members of `PipelineBuilder` that `vk_pipelines.cpp` names. The declaration of
the class (`vk_pipelines.h`) is not among the sources; `_shaderStages` is a vector of
shader-stage descriptions and `_pipelineLayout` a handle. -/
structure PipelineBuilder where
  _shaderStages : List VkPipelineShaderStageCreateInfo
  _inputAssembly : VkPipelineInputAssemblyStateCreateInfo
  _rasterizer : VkPipelineRasterizationStateCreateInfo
  _colorBlendAttachment : VkPipelineColorBlendAttachmentState
  _multisampling : VkPipelineMultisampleStateCreateInfo
  _pipelineLayout : Nat
  _depthStencil : VkPipelineDepthStencilStateCreateInfo
  _renderInfo : VkPipelineRenderingCreateInfo
  deriving DecidableEq

/-- `PipelineBuilder::clear`. An initialiser `{ .sType = T }` value-initialises every other
member. -/
def PipelineBuilder.clear (_b : PipelineBuilder) : PipelineBuilder :=
  { _inputAssembly :=
      { VkPipelineInputAssemblyStateCreateInfo.zero with
        sType := VK_STRUCTURE_TYPE_PIPELINE_INPUT_ASSEMBLY_STATE_CREATE_INFO }
    _rasterizer :=
      { VkPipelineRasterizationStateCreateInfo.zero with
        sType := VK_STRUCTURE_TYPE_PIPELINE_RASTERIZATION_STATE_CREATE_INFO }
    _colorBlendAttachment := VkPipelineColorBlendAttachmentState.zero
    _multisampling :=
      { VkPipelineMultisampleStateCreateInfo.zero with
        sType := VK_STRUCTURE_TYPE_PIPELINE_MULTISAMPLE_STATE_CREATE_INFO }
    _pipelineLayout := 0
    _depthStencil :=
      { VkPipelineDepthStencilStateCreateInfo.zero with
        sType := VK_STRUCTURE_TYPE_PIPELINE_DEPTH_STENCIL_STATE_CREATE_INFO }
    _renderInfo :=
      { VkPipelineRenderingCreateInfo.zero with
        sType := VK_STRUCTURE_TYPE_PIPELINE_RENDERING_CREATE_INFO }
    _shaderStages := [] }

/-- Modelled from the spec: the constructor of `PipelineBuilder` (`vk_pipelines.h`) is not
among the sources. Section 8 of the spec makes a freshly constructed builder the state that
`clear()` leaves as it is: every sub-state zero with its own type tag, no shader stage. -/
def PipelineBuilder.fresh : PipelineBuilder :=
  { _shaderStages := []
    _inputAssembly := { sType := 20, pNext := 0, flags := 0, topology := 0,
                        primitiveRestartEnable := 0 }
    _rasterizer := { sType := 23, pNext := 0, flags := 0, depthClampEnable := 0,
                     rasterizerDiscardEnable := 0, polygonMode := 0, cullMode := 0,
                     frontFace := 0, depthBiasEnable := 0, depthBiasConstantFactor := 0,
                     depthBiasClamp := 0, depthBiasSlopeFactor := 0, lineWidth := 0 }
    _colorBlendAttachment := VkPipelineColorBlendAttachmentState.zero
    _multisampling := { sType := 24, pNext := 0, flags := 0, rasterizationSamples := 0,
                        sampleShadingEnable := 0, minSampleShading := 0, pSampleMask := 0,
                        alphaToCoverageEnable := 0, alphaToOneEnable := 0 }
    _pipelineLayout := 0
    _depthStencil := { sType := 25, pNext := 0, flags := 0, depthTestEnable := 0,
                       depthWriteEnable := 0, depthCompareOp := 0, depthBoundsTestEnable := 0,
                       stencilTestEnable := 0, front := VkStencilOpState.zero,
                       back := VkStencilOpState.zero, minDepthBounds := 0, maxDepthBounds := 0 }
    _renderInfo := { sType := 1000044002, pNext := 0, viewMask := 0, colorAttachmentCount := 0,
                     pColorAttachmentFormats := 0, depthAttachmentFormat := 0,
                     stencilAttachmentFormat := 0 } }

/-- A call of a driver entry point made by the functions of `vk_pipelines.cpp`;
`vkCreateShaderModule` is the only entry point the file names. -/
inductive DriverCall where
  | vkCreateShaderModule (device : Nat) (createInfo : VkShaderModuleCreateInfo)
  deriving DecidableEq

/-- What one run of `PipelineBuilder::build_pipeline` does: the three local structures when
the body ends, the builder when the body ends, the driver calls made, and the operand of the
`return` statement reached (`none` when control reaches the closing brace without one). -/
structure BuildPipelineRun where
  viewportState : VkPipelineViewportStateCreateInfo
  colorBlending : VkPipelineColorBlendStateCreateInfo
  _vertexInputInfo : VkPipelineVertexInputStateCreateInfo
  builder : PipelineBuilder
  driverCalls : List DriverCall
  returned : Option Nat
  deriving DecidableEq

/-- `PipelineBuilder::build_pipeline`, statement by statement. The body ends after the
declaration of `_vertexInputInfo`. -/
def PipelineBuilder.build_pipeline (b : PipelineBuilder) (_device : Nat) : BuildPipelineRun :=
  let viewportState := VkPipelineViewportStateCreateInfo.zero
  let viewportState :=
    { viewportState with sType := VK_STRUCTURE_TYPE_PIPELINE_VIEWPORT_STATE_CREATE_INFO }
  let viewportState := { viewportState with pNext := 0 }
  let viewportState := { viewportState with viewportCount := 1 }
  let viewportState := { viewportState with scissorCount := 1 }
  let colorBlending := VkPipelineColorBlendStateCreateInfo.zero
  let colorBlending :=
    { colorBlending with sType := VK_STRUCTURE_TYPE_PIPELINE_COLOR_BLEND_STATE_CREATE_INFO }
  let colorBlending := { colorBlending with pNext := 0 }
  let colorBlending := { colorBlending with logicOpEnable := VK_FALSE }
  let colorBlending := { colorBlending with logicOp := VK_LOGIC_OP_COPY }
  let colorBlending := { colorBlending with attachmentCount := 1 }
  let colorBlending :=
    { colorBlending with pAttachments := Ptr.addressOf b._colorBlendAttachment }
  let _vertexInputInfo :=
    { VkPipelineVertexInputStateCreateInfo.zero with
      sType := VK_STRUCTURE_TYPE_PIPELINE_VERTEX_INPUT_STATE_CREATE_INFO }
  { viewportState := viewportState
    colorBlending := colorBlending
    _vertexInputInfo := _vertexInputInfo
    builder := b
    driverCalls := []
    returned := none }

/-! ## `vk_pipelines.cpp` : `vkutil::load_shader_module` -/

/-- Number of values of `size_t` (64 bits). -/
def SIZE_MODULUS : Nat := 18446744073709551616

/-- `sizeof(uint32_t)`. -/
def SIZEOF_UINT32 : Nat := 4

/-- What one run of `load_shader_module` does: the value returned, the object
`outShaderModule` points at when the function ends, `buffer.size()`, the byte count passed to
`file.read`, and the driver calls made. The last three are empty or zero when the function
returns before reaching them. -/
structure LoadShaderRun where
  returned : Bool
  outShaderModule : Nat
  bufferWords : Nat
  readRequest : Nat
  driverCalls : List DriverCall
  deriving DecidableEq

/-- `vkutil::load_shader_module`. `openFile` gives the bytes of the file at a path, or `none`
when the stream does not open; `vkCreateShaderModule` is the driver entry point, giving the
result code and the handle it stores; `outShaderModule` is the object the output pointer
designates, as it is before the call. `pCode` is the buffer seen as bytes: the part of the
file that lies within `buffer.size() * sizeof(uint32_t)` bytes. -/
def load_shader_module (openFile : String → Option (List (Fin 256)))
    (vkCreateShaderModule : Nat → VkShaderModuleCreateInfo → Int × Nat)
    (filePath : String) (device : Nat) (outShaderModule : Nat) : LoadShaderRun :=
  match openFile filePath with
  | none =>
    { returned := false, outShaderModule := outShaderModule, bufferWords := 0,
      readRequest := 0, driverCalls := [] }
  | some bytes =>
    let fileSize := bytes.length % SIZE_MODULUS
    let bufferWords := fileSize / SIZEOF_UINT32
    let readRequest := fileSize
    let createInfo := VkShaderModuleCreateInfo.zero
    let createInfo := { createInfo with sType := VK_STRUCTURE_TYPE_SHADER_MODULE_CREATE_INFO }
    let createInfo := { createInfo with pNext := 0 }
    let createInfo :=
      { createInfo with codeSize := (bufferWords * SIZEOF_UINT32) % SIZE_MODULUS }
    let createInfo := { createInfo with pCode := bytes.take (bufferWords * SIZEOF_UINT32) }
    let created := vkCreateShaderModule device createInfo
    if created.1 ≠ VK_SUCCESS then
      { returned := false, outShaderModule := outShaderModule, bufferWords := bufferWords,
        readRequest := readRequest,
        driverCalls := [DriverCall.vkCreateShaderModule device createInfo] }
    else
      { returned := true, outShaderModule := created.2, bufferWords := bufferWords,
        readRequest := readRequest,
        driverCalls := [DriverCall.vkCreateShaderModule device createInfo] }

/-! ### Sample inputs of `load_shader_module` -/

/-- A path. -/
def samplePath : String := "shader.spv"

/-- A file system where every path opens a file of five bytes. -/
def fiveByteFile : String → Option (List (Fin 256)) := fun _ => some [3, 2, 35, 7, 0]

/-- A driver that accepts every shader module and hands out the handle 42. -/
def acceptingDriver : Nat → VkShaderModuleCreateInfo → Int × Nat := fun _ _ => (VK_SUCCESS, 42)

/-! ### Lemmas on the flush loop -/

theorem flushLoop_take {W : Type} (d : List (W → W)) :
    ∀ (n : Nat) (s : Exec W), n ≤ d.length →
      DeletionQueue.flushLoop d n s =
        { world := (d.take n).foldr (fun f w => f w) s.world,
          calls := s.calls ++ (d.take n).reverse } := by
  intro n
  induction n with
  | zero => intro s _; simp [DeletionQueue.flushLoop]
  | succ n ih =>
    intro s hn
    have hlt : n < d.length := hn
    have hget : d[n]? = some d[n] := List.getElem?_eq_getElem hlt
    have htake : d.take (n + 1) = d.take n ++ [d[n]] := by
      rw [List.take_succ, hget]; rfl
    rw [DeletionQueue.flushLoop, hget]
    simp only
    rw [ih _ (Nat.le_of_lt hlt), htake]
    simp only [List.foldr_append, List.foldr_cons, List.foldr_nil, List.reverse_append,
      List.reverse_cons, List.reverse_nil, List.nil_append, List.append_assoc,
      List.singleton_append]

theorem flush_eq {W : Type} (q : DeletionQueue W) (s : Exec W) :
    q.flush s =
      ({ deletors := [] },
       { world := q.deletors.foldr (fun f w => f w) s.world,
         calls := s.calls ++ q.deletors.reverse }) := by
  unfold DeletionQueue.flush
  rw [flushLoop_take q.deletors q.deletors.length s (Nat.le_refl _)]
  simp

theorem push_all_deletors {W : Type} (as : List (W → W)) (q : DeletionQueue W) :
    (as.foldl DeletionQueue.push_function q).deletors = q.deletors ++ as := by
  induction as generalizing q with
  | nil => simp
  | cons a as ih => simp [ih, DeletionQueue.push_function]

theorem step_flush_fields {W : Type} (r : QueueRun W) :
    (r.step QueueOp.flushOp).queue.deletors = [] ∧
    (r.step QueueOp.flushOp).flushes = r.flushes ++ [r.queue.deletors.reverse] ∧
    (r.step QueueOp.flushOp).exec.calls = r.exec.calls ++ r.queue.deletors.reverse ∧
    (r.step QueueOp.flushOp).exec.world = r.queue.deletors.foldr (fun f w => f w) r.exec.world := by
  simp [QueueRun.step, flush_eq]

theorem run_general {W : Type} (ops : List (QueueOp W)) :
    ∀ r : QueueRun W,
      (r.run ops).flushes = r.flushes ++ flushGroups ops r.queue.deletors ∧
      (r.run ops).queue.deletors = pendingPushes ops r.queue.deletors ∧
      (r.run ops).exec.calls = r.exec.calls ++ (flushGroups ops r.queue.deletors).flatten := by
  induction ops with
  | nil => intro r; simp [QueueRun.run, flushGroups, pendingPushes]
  | cons op ops ih =>
    intro r
    have hrun : r.run (op :: ops) = (r.step op).run ops := rfl
    rw [hrun]
    obtain ⟨h1, h2, h3⟩ := ih (r.step op)
    cases op with
    | push f =>
      simp only [QueueRun.step, DeletionQueue.push_function] at h1 h2 h3
      simp only [flushGroups, pendingPushes]
      exact ⟨h1, h2, h3⟩
    | flushOp =>
      obtain ⟨hq, hf, hc, -⟩ := step_flush_fields r
      rw [hq] at h1 h2 h3
      rw [hf] at h1
      rw [hc] at h3
      simp only [flushGroups, pendingPushes, List.flatten_cons]
      refine ⟨?_, h2, ?_⟩
      · rw [h1]; simp
      · rw [h3]; simp

theorem groups_partition {W : Type} (ops : List (QueueOp W)) :
    ∀ acc : List (W → W),
      ((flushGroups ops acc).map List.reverse).flatten ++ pendingPushes ops acc =
        acc ++ pushedActions ops := by
  induction ops with
  | nil => intro acc; simp [flushGroups, pendingPushes, pushedActions]
  | cons op ops ih =>
    intro acc
    cases op with
    | push f =>
      simp only [flushGroups, pendingPushes, pushedActions]
      rw [ih]; simp
    | flushOp =>
      simp only [flushGroups, pendingPushes, pushedActions, List.map_cons, List.flatten_cons,
        List.reverse_reverse, List.append_assoc]
      rw [ih]; simp

theorem flushGroups_pushes {W : Type} (as : List (W → W)) :
    ∀ acc : List (W → W),
      flushGroups (as.map QueueOp.push ++ [QueueOp.flushOp]) acc = [(acc ++ as).reverse] := by
  induction as with
  | nil => intro acc; simp [flushGroups]
  | cons a as ih =>
    intro acc
    have h : flushGroups ((a :: as).map QueueOp.push ++ [QueueOp.flushOp]) acc =
        flushGroups (as.map QueueOp.push ++ [QueueOp.flushOp]) (acc ++ [a]) := rfl
    rw [h, ih]; simp

theorem push_all_eq {W : Type} (as : List (W → W)) (q : DeletionQueue W) :
    as.foldl DeletionQueue.push_function q = { deletors := q.deletors ++ as } := by
  have h := push_all_deletors as q
  cases hq : as.foldl DeletionQueue.push_function q with
  | mk d => rw [hq] at h; simp only at h; rw [h]

theorem frameIndex_cast (n : Int) : (frameIndex n : Int) = n % 2 := by
  unfold frameIndex toUnsigned FRAME_OVERLAP
  omega

theorem frameIndex_succ_ne (n : Int) : frameIndex (n + 1) ≠ frameIndex n := by
  intro h
  have h1 := frameIndex_cast (n + 1)
  have h2 := frameIndex_cast n
  rw [h] at h1
  omega

theorem frameIndex_add_two (n : Int) : frameIndex (n + 2) = frameIndex n := by
  have h1 := frameIndex_cast (n + 2)
  have h2 := frameIndex_cast n
  omega

theorem draw_fields {W : Type} (ps : List (W → W)) (e : VulkanEngine W) (w : W) :
    (e.draw ps w).1._frameNumber = e._frameNumber + 1 ∧
    (e.draw ps w).1._frames =
      Function.update e._frames e.currentSlot
        { e._frames e.currentSlot with _deletionQueue := { deletors := ps } } ∧
    (e.draw ps w).2 =
      { world := (e._frames e.currentSlot)._deletionQueue.deletors.foldr (fun f x => f x) w,
        calls := (e._frames e.currentSlot)._deletionQueue.deletors.reverse } := by
  refine ⟨rfl, ?_, ?_⟩
  · simp [VulkanEngine.draw, VulkanEngine.set_current_frame, VulkanEngine.get_current_frame,
      VulkanEngine.currentSlot, flush_eq, push_all_eq]
  · simp [VulkanEngine.draw, VulkanEngine.get_current_frame, flush_eq]

/-! ## Claims on frame selection and the rotation -/

/-- Claim C5: for every 32-bit `int` value `n` of `_frameNumber`, negative ones included,
`get_current_frame()` indexes `_frames` with `(n mod 2^32) mod 2`; the index is 0 or 1, hence
below `FRAME_OVERLAP` (the access is in bounds); it is the parity of `n`; and for `n < INT_MAX`
the frames `n` and `n + 1` select different slots while `n` and `n + 2` select the same one;
`get_current_frame()` of an engine at frame `n` is the element of `_frames` at that index. -/
theorem frame_slot_is_parity (n : Int) (_hlo : INT_MIN ≤ n) (_hhi : n ≤ INT_MAX) :
    frameIndex n = (n % 4294967296).toNat % 2 ∧
    frameIndex n < FRAME_OVERLAP ∧
    (frameIndex n = 0 ∨ frameIndex n = 1) ∧
    (frameIndex n : Int) = n % 2 ∧
    (n < INT_MAX → frameIndex n ≠ frameIndex (n + 1) ∧ frameIndex n = frameIndex (n + 2)) ∧
    (∀ e : VulkanEngine Unit, e._frameNumber = n →
      (e.currentSlot : Nat) = frameIndex n ∧ e.get_current_frame = e._frames e.currentSlot) := by
  have hlt : frameIndex n < 2 := Nat.mod_lt _ (by decide)
  refine ⟨rfl, hlt, ?_, frameIndex_cast n, ?_, ?_⟩
  · omega
  · intro _
    exact ⟨fun h => frameIndex_succ_ne n h.symm, (frameIndex_add_two n).symm⟩
  · intro e he
    exact ⟨by rw [← he]; rfl, rfl⟩

theorem frame_slot_is_parity_witness :
    (INT_MIN ≤ (-3 : Int) ∧ (-3 : Int) ≤ INT_MAX) ∧
    (frameIndex (-3) = ((-3 : Int) % 4294967296).toNat % 2 ∧
     frameIndex (-3) < FRAME_OVERLAP ∧
     (frameIndex (-3) = 0 ∨ frameIndex (-3) = 1) ∧
     (frameIndex (-3) : Int) = (-3 : Int) % 2 ∧
     ((-3 : Int) < INT_MAX →
        frameIndex (-3) ≠ frameIndex (-3 + 1) ∧ frameIndex (-3) = frameIndex (-3 + 2)) ∧
     (∀ e : VulkanEngine Unit, e._frameNumber = -3 →
        (e.currentSlot : Nat) = frameIndex (-3) ∧
        e.get_current_frame = e._frames e.currentSlot)) :=
  ⟨⟨by decide, by decide⟩, frame_slot_is_parity (-3) (by decide) (by decide)⟩

/-- Claim C2: in the rotation where each frame selects its slot with `get_current_frame()`,
flushes that slot's queue at its start and increments `_frameNumber` at its end, let `pushes0`
be the actions pushed onto the current slot during frame `R` (any frame number that keeps
`R + FRAME_OVERLAP` an `int`). Frame `R + 1` uses the other slot: its flush calls exactly what
that other slot held before frame `R`, whatever `pushes0` is, and leaves the slot of frame `R`
unchanged, holding `pushes0`. Frame `R + 2` uses the slot of frame `R` again and its flush calls
exactly `pushes0`, newest first. -/
theorem deferred_release_one_rotation_later {W : Type} (e : VulkanEngine W) (w : W)
    (pushes0 pushes1 pushes2 : List (W → W))
    (_hlo : INT_MIN ≤ e._frameNumber) (_hhi : e._frameNumber + FRAME_OVERLAP ≤ INT_MAX) :
    (e.drawAll [pushes0] w).1._frameNumber = e._frameNumber + 1 ∧
    (e.drawAll [pushes0, pushes1] w).1._frameNumber = e._frameNumber + 2 ∧
    (e.drawAll [pushes0] w).1.currentSlot = otherSlot e.currentSlot ∧
    otherSlot e.currentSlot ≠ e.currentSlot ∧
    (e.drawAll [pushes0, pushes1] w).1.currentSlot = e.currentSlot ∧
    ((e.drawAll [pushes0] w).1._frames e.currentSlot)._deletionQueue.deletors = pushes0 ∧
    (e.drawAll [pushes0, pushes1] w).1._frames e.currentSlot =
      (e.drawAll [pushes0] w).1._frames e.currentSlot ∧
    (e.drawAll [pushes0, pushes1, pushes2] w).2.2 =
      [(e._frames e.currentSlot)._deletionQueue.deletors.reverse,
       (e._frames (otherSlot e.currentSlot))._deletionQueue.deletors.reverse,
       pushes0.reverse] := by
  obtain ⟨n0, fr0, x0⟩ := draw_fields pushes0 e w
  obtain ⟨n1, fr1, x1⟩ := draw_fields pushes1 (e.draw pushes0 w).1 (e.draw pushes0 w).2.world
  obtain ⟨n2, fr2, x2⟩ := draw_fields pushes2
    ((e.draw pushes0 w).1.draw pushes1 (e.draw pushes0 w).2.world).1
    ((e.draw pushes0 w).1.draw pushes1 (e.draw pushes0 w).2.world).2.world
  have hne : otherSlot e.currentSlot ≠ e.currentSlot := by
    intro h
    have hv := congrArg Fin.val h
    have hb := e.currentSlot.isLt
    simp only [otherSlot, FRAME_OVERLAP] at hv hb
    omega
  have s1 : (e.draw pushes0 w).1.currentSlot = otherSlot e.currentSlot := by
    apply Fin.ext
    have hc := frameIndex_cast (e._frameNumber + 1)
    have hd := frameIndex_cast e._frameNumber
    simp only [VulkanEngine.currentSlot, otherSlot, n0, FRAME_OVERLAP]
    omega
  have s2 : ((e.draw pushes0 w).1.draw pushes1 (e.draw pushes0 w).2.world).1.currentSlot =
      e.currentSlot := by
    apply Fin.ext
    simp only [VulkanEngine.currentSlot, n1, n0]
    rw [add_assoc]
    exact frameIndex_add_two e._frameNumber
  have q0 : (e.draw pushes0 w).1._frames e.currentSlot =
      { e._frames e.currentSlot with _deletionQueue := { deletors := pushes0 } } := by
    rw [fr0, Function.update_same]
  have q0o : (e.draw pushes0 w).1._frames (otherSlot e.currentSlot) =
      e._frames (otherSlot e.currentSlot) := by
    rw [fr0, Function.update_noteq hne]
  have q1 : ((e.draw pushes0 w).1.draw pushes1 (e.draw pushes0 w).2.world).1._frames
      e.currentSlot = (e.draw pushes0 w).1._frames e.currentSlot := by
    rw [fr1, s1, Function.update_noteq hne.symm]
  have c0 : (e.draw pushes0 w).2.calls =
      (e._frames e.currentSlot)._deletionQueue.deletors.reverse := by rw [x0]
  have c1 : ((e.draw pushes0 w).1.draw pushes1 (e.draw pushes0 w).2.world).2.calls =
      (e._frames (otherSlot e.currentSlot))._deletionQueue.deletors.reverse := by
    rw [x1, s1, q0o]
  have c2 : (((e.draw pushes0 w).1.draw pushes1 (e.draw pushes0 w).2.world).1.draw pushes2
      ((e.draw pushes0 w).1.draw pushes1 (e.draw pushes0 w).2.world).2.world).2.calls =
      pushes0.reverse := by
    rw [x2, s2, q1, q0]
  refine ⟨n0, ?_, s1, hne, s2, ?_, q1, ?_⟩
  · show ((e.draw pushes0 w).1.draw pushes1 (e.draw pushes0 w).2.world).1._frameNumber = _
    rw [n1, n0]; ring
  · show ((e.draw pushes0 w).1._frames e.currentSlot)._deletionQueue.deletors = pushes0
    rw [q0]
  · show [(e.draw pushes0 w).2.calls,
      ((e.draw pushes0 w).1.draw pushes1 (e.draw pushes0 w).2.world).2.calls,
      (((e.draw pushes0 w).1.draw pushes1 (e.draw pushes0 w).2.world).1.draw pushes2
        ((e.draw pushes0 w).1.draw pushes1 (e.draw pushes0 w).2.world).2.world).2.calls] = _
    rw [c2, c1, c0]

theorem deferred_release_one_rotation_later_witness :
    (INT_MIN ≤ sampleEngine._frameNumber ∧
      sampleEngine._frameNumber + FRAME_OVERLAP ≤ INT_MAX) ∧
    (sampleEngine.drawAll [[logAction 1, logAction 2], [logAction 3], []] []).2.2 =
      [(sampleEngine._frames sampleEngine.currentSlot)._deletionQueue.deletors.reverse,
       (sampleEngine._frames (otherSlot sampleEngine.currentSlot))._deletionQueue.deletors.reverse,
       [logAction 1, logAction 2].reverse] :=
  ⟨⟨by decide, by decide⟩,
   (deferred_release_one_rotation_later sampleEngine [] [logAction 1, logAction 2]
      [logAction 3] [] (by decide) (by decide)).2.2.2.2.2.2.2⟩

/-! ## Claims on the deletion queue -/

/-- Claim C1: for every sequence of actions `a1 .. aN` (`N ≥ 0`) pushed with `push_function`
onto an empty queue, one `flush` calls exactly `aN, .., a1` in that order, each once (so the
world becomes `a1 (a2 (.. (aN w)))`), and leaves `deletors` empty; flushing the empty queue
calls nothing, changes nothing and leaves the queue empty. -/
theorem flush_runs_pushes_in_reverse {W : Type} (as : List (W → W)) (w : W) :
    (as.foldl DeletionQueue.push_function (DeletionQueue.empty W)).deletors = as ∧
    ((as.foldl DeletionQueue.push_function (DeletionQueue.empty W)).flush
        { world := w, calls := [] }).2.calls = as.reverse ∧
    ((as.foldl DeletionQueue.push_function (DeletionQueue.empty W)).flush
        { world := w, calls := [] }).2.world = as.foldr (fun f x => f x) w ∧
    ((as.foldl DeletionQueue.push_function (DeletionQueue.empty W)).flush
        { world := w, calls := [] }).1.deletors = [] ∧
    (DeletionQueue.empty W).flush { world := w, calls := [] } =
      (DeletionQueue.empty W, { world := w, calls := [] }) := by
  have hd : (as.foldl DeletionQueue.push_function (DeletionQueue.empty W)).deletors = as := by
    rw [push_all_deletors]; simp [DeletionQueue.empty]
  refine ⟨hd, ?_, ?_, ?_, ?_⟩
  · rw [flush_eq, hd]; simp
  · rw [flush_eq, hd]
  · rw [flush_eq]
  · rw [flush_eq]; simp [DeletionQueue.empty]

/-- Claim C8: for every interleaving of `push_function` and `flush` calls on one queue that
starts empty, the k-th flush calls exactly the actions pushed since the flush before it,
newest first; the actions no flush has followed yet are the ones still queued; the calls of
all flushes (each read backwards) followed by the queued actions are the pushed actions in
push order, so every pushed action is called once, by the first flush after its push, and
never again; from any state, a flush right after a flush calls nothing, and actions pushed
after a flush are called by the next flush in reverse order of their insertion. -/
theorem every_push_flushed_once {W : Type} (ops : List (QueueOp W)) (w : W) :
    ((QueueRun.start w).run ops).flushes = flushGroups ops [] ∧
    ((QueueRun.start w).run ops).queue.deletors = pendingPushes ops [] ∧
    ((QueueRun.start w).run ops).exec.calls = (flushGroups ops []).flatten ∧
    ((((QueueRun.start w).run ops).flushes.map List.reverse).flatten ++
        ((QueueRun.start w).run ops).queue.deletors = pushedActions ops) ∧
    (∀ r : QueueRun W,
      ((r.step QueueOp.flushOp).step QueueOp.flushOp).flushes =
          (r.step QueueOp.flushOp).flushes ++ [[]] ∧
      ((r.step QueueOp.flushOp).step QueueOp.flushOp).exec = (r.step QueueOp.flushOp).exec ∧
      ∀ as : List (W → W),
        ((r.step QueueOp.flushOp).run (as.map QueueOp.push ++ [QueueOp.flushOp])).flushes =
          (r.step QueueOp.flushOp).flushes ++ [as.reverse]) := by
  obtain ⟨h1, h2, h3⟩ := run_general ops (QueueRun.start w)
  have e1 : (QueueRun.start w).flushes = [] := rfl
  have e2 : (QueueRun.start w).queue.deletors = [] := rfl
  have e3 : (QueueRun.start w).exec.calls = [] := rfl
  rw [e1, e2, List.nil_append] at h1
  rw [e2] at h2
  rw [e3, e2, List.nil_append] at h3
  refine ⟨h1, h2, h3, ?_, ?_⟩
  · rw [h1, h2]
    simpa using groups_partition ops []
  · intro r
    obtain ⟨hq, -, -, -⟩ := step_flush_fields r
    obtain ⟨-, hf2, hc2, hw2⟩ := step_flush_fields (r.step QueueOp.flushOp)
    rw [hq] at hf2 hc2 hw2
    refine ⟨?_, ?_, ?_⟩
    · rw [hf2]; rfl
    · have hc3 : ((r.step QueueOp.flushOp).step QueueOp.flushOp).exec.calls =
          (r.step QueueOp.flushOp).exec.calls := by rw [hc2]; simp
      have hw3 : ((r.step QueueOp.flushOp).step QueueOp.flushOp).exec.world =
          (r.step QueueOp.flushOp).exec.world := by rw [hw2]; rfl
      cases hx : ((r.step QueueOp.flushOp).step QueueOp.flushOp).exec with
      | mk w1 c1 =>
        cases hy : (r.step QueueOp.flushOp).exec with
        | mk w0 c0 =>
          rw [hx, hy] at hc3 hw3
          simp only at hc3 hw3
          rw [hc3, hw3]
    · intro as
      obtain ⟨g1, -, -⟩ := run_general (as.map QueueOp.push ++ [QueueOp.flushOp])
        (r.step QueueOp.flushOp)
      rw [g1, flushGroups_pushes, hq]
      simp

/-! ## Claims on the pipeline builder -/

/-- Claim C6: for every builder state, `clear()` gives one and the same state: input assembly,
rasterizer, multisampling, depth-stencil and rendering info are zero apart from `sType`, which
is the tag of that structure; colour-blend attachment and pipeline layout are zero; there is
no shader stage. So `clear()` after `clear()` is `clear()`, and `clear()` leaves a freshly
constructed builder as it is (the fresh builder is the only state `clear()` leaves as it is). -/
theorem clear_resets_every_substate (b : PipelineBuilder) :
    b.clear._inputAssembly =
      { sType := VK_STRUCTURE_TYPE_PIPELINE_INPUT_ASSEMBLY_STATE_CREATE_INFO, pNext := 0,
        flags := 0, topology := 0, primitiveRestartEnable := 0 } ∧
    b.clear._rasterizer =
      { sType := VK_STRUCTURE_TYPE_PIPELINE_RASTERIZATION_STATE_CREATE_INFO, pNext := 0,
        flags := 0, depthClampEnable := 0, rasterizerDiscardEnable := 0, polygonMode := 0,
        cullMode := 0, frontFace := 0, depthBiasEnable := 0, depthBiasConstantFactor := 0,
        depthBiasClamp := 0, depthBiasSlopeFactor := 0, lineWidth := 0 } ∧
    b.clear._multisampling =
      { sType := VK_STRUCTURE_TYPE_PIPELINE_MULTISAMPLE_STATE_CREATE_INFO, pNext := 0,
        flags := 0, rasterizationSamples := 0, sampleShadingEnable := 0, minSampleShading := 0,
        pSampleMask := 0, alphaToCoverageEnable := 0, alphaToOneEnable := 0 } ∧
    b.clear._depthStencil =
      { sType := VK_STRUCTURE_TYPE_PIPELINE_DEPTH_STENCIL_STATE_CREATE_INFO, pNext := 0,
        flags := 0, depthTestEnable := 0, depthWriteEnable := 0, depthCompareOp := 0,
        depthBoundsTestEnable := 0, stencilTestEnable := 0,
        front := { failOp := 0, passOp := 0, depthFailOp := 0, compareOp := 0,
                   compareMask := 0, writeMask := 0, reference := 0 },
        back := { failOp := 0, passOp := 0, depthFailOp := 0, compareOp := 0,
                  compareMask := 0, writeMask := 0, reference := 0 },
        minDepthBounds := 0, maxDepthBounds := 0 } ∧
    b.clear._renderInfo =
      { sType := VK_STRUCTURE_TYPE_PIPELINE_RENDERING_CREATE_INFO, pNext := 0, viewMask := 0,
        colorAttachmentCount := 0, pColorAttachmentFormats := 0, depthAttachmentFormat := 0,
        stencilAttachmentFormat := 0 } ∧
    b.clear._colorBlendAttachment =
      { blendEnable := 0, srcColorBlendFactor := 0, dstColorBlendFactor := 0,
        colorBlendOp := 0, srcAlphaBlendFactor := 0, dstAlphaBlendFactor := 0,
        alphaBlendOp := 0, colorWriteMask := 0 } ∧
    b.clear._pipelineLayout = 0 ∧
    b.clear._shaderStages = [] ∧
    (∀ b2 : PipelineBuilder, b2.clear = b.clear) ∧
    b.clear.clear = b.clear ∧
    PipelineBuilder.fresh.clear = PipelineBuilder.fresh ∧
    (∀ x : PipelineBuilder, x.clear = x → x = PipelineBuilder.fresh) :=
  ⟨rfl, rfl, rfl, rfl, rfl, rfl, rfl, rfl, fun _ => rfl, rfl, rfl, fun _ h => h.symm.trans rfl⟩

/-- Claim C9: for every builder state and device, the fixed state `build_pipeline` assembles
is the same whatever the setters stored: the viewport state has one viewport and one scissor
and null `pViewports` and `pScissors`; the colour-blend state has `logicOpEnable = VK_FALSE`,
`attachmentCount = 1` and `pAttachments` pointing at the builder's `_colorBlendAttachment`; the
vertex-input state has no binding and no attribute description; the builder is unchanged. -/
theorem build_pipeline_fixed_state (b : PipelineBuilder) (device : Nat) :
    (b.build_pipeline device).viewportState =
      { sType := VK_STRUCTURE_TYPE_PIPELINE_VIEWPORT_STATE_CREATE_INFO, pNext := 0, flags := 0,
        viewportCount := 1, pViewports := 0, scissorCount := 1, pScissors := 0 } ∧
    (b.build_pipeline device).colorBlending =
      { sType := VK_STRUCTURE_TYPE_PIPELINE_COLOR_BLEND_STATE_CREATE_INFO, pNext := 0,
        flags := 0, logicOpEnable := VK_FALSE, logicOp := VK_LOGIC_OP_COPY,
        attachmentCount := 1, pAttachments := Ptr.addressOf b._colorBlendAttachment,
        blendConstants := [0, 0, 0, 0] } ∧
    (b.build_pipeline device)._vertexInputInfo =
      { sType := VK_STRUCTURE_TYPE_PIPELINE_VERTEX_INPUT_STATE_CREATE_INFO, pNext := 0,
        flags := 0, vertexBindingDescriptionCount := 0, pVertexBindingDescriptions := 0,
        vertexAttributeDescriptionCount := 0, pVertexAttributeDescriptions := 0 } ∧
    (b.build_pipeline device).builder = b ∧
    (∀ (b2 : PipelineBuilder) (device2 : Nat),
      (b2.build_pipeline device2).viewportState = (b.build_pipeline device).viewportState ∧
      (b2.build_pipeline device2)._vertexInputInfo = (b.build_pipeline device)._vertexInputInfo ∧
      (b2.build_pipeline device2).colorBlending.logicOpEnable = VK_FALSE ∧
      (b2.build_pipeline device2).colorBlending.attachmentCount = 1 ∧
      { (b2.build_pipeline device2).colorBlending with pAttachments := Ptr.null } =
        { (b.build_pipeline device).colorBlending with pAttachments := Ptr.null }) :=
  ⟨rfl, rfl, rfl, rfl, fun _ _ => ⟨rfl, rfl, rfl, rfl, rfl⟩⟩

/-- Claim C7, what the code does: for every builder state and device, `build_pipeline` calls
no driver entry point and reaches the end of its body without a `return` statement. -/
theorem build_pipeline_creates_nothing (b : PipelineBuilder) (device : Nat) :
    (b.build_pipeline device).driverCalls = [] ∧ (b.build_pipeline device).returned = none :=
  ⟨rfl, rfl⟩

/-! ## Claims on the shader loader -/

/-- Claim C3, what the code does on a file whose length is not a multiple of 4: a file of five
bytes opens, the buffer gets one word, five bytes are asked of the file, creation is requested
with `codeSize = 4`, and with a driver that accepts it the function returns true and stores
the new handle. -/
theorem load_shader_module_accepts_five_bytes :
    (5 : Nat) % 4 ≠ 0 ∧
    load_shader_module fiveByteFile acceptingDriver samplePath 1 0 =
      { returned := true, outShaderModule := 42, bufferWords := 1, readRequest := 5,
        driverCalls :=
          [DriverCall.vkCreateShaderModule 1
            { sType := VK_STRUCTURE_TYPE_SHADER_MODULE_CREATE_INFO, pNext := 0, flags := 0,
              codeSize := 4, pCode := [3, 2, 35, 7] }] } := by
  decide

end VkEngine


